import Mathlib

/-!
Verification of the WhatsApp connection-lifecycle manager
(`whatsapp-integrated` service, refined revision) against its
natural-language specification.

The service is embedded shallowly: module-level mutable state becomes the
`SvcState` structure, the Baileys `connection.update` handler branches become
pure state transformers (`handleQr`, `handleOpen`, `handleClose`, ...), and
timer side effects are recorded in the state (`scheduledReconnect`,
`qrExpiryTimeout`) or returned as an explicit `CloseAction`.
Delays are modelled over `ℚ` (the JavaScript arithmetic
`5000 * Math.pow(1.5, n)` is exact for the attempt counts reachable here,
since attempts are capped at 10), timestamps over `ℕ` (milliseconds).
-/

-- ============================================
-- Constants (verbatim from the service module)
-- ============================================

def QR_TIMEOUT_MS : Nat := 300000

def MAX_QR_RETRIES : Nat := 30

def MIN_RECONNECT_DELAY : Nat := 30000

def MIN_QR_RECONNECT_DELAY : Nat := 2000

def MIN_QR_REGENERATION_DELAY : Nat := 120000

def MAX_RECONNECT_ATTEMPTS : Nat := 10

def RECONNECT_BACKOFF_BASE : Nat := 5000

def MAX_PROCESSED_CACHE : Nat := 5000

/-- Baileys `DisconnectReason.loggedOut`. -/
def DR_loggedOut : Nat := 401

/-- Baileys `DisconnectReason.restartRequired`. -/
def DR_restartRequired : Nat := 515

/-- Baileys `DisconnectReason.connectionClosed` (also the literal `428` branch). -/
def DR_connectionClosed : Nat := 428

/-- Baileys `DisconnectReason.connectionLost`. -/
def DR_connectionLost : Nat := 408

-- ============================================
-- Reconnect backoff (`getReconnectDelay`)
-- ============================================

/-- `getReconnectDelay`: `Math.min(baseDelay * Math.pow(1.5, reconnectAttempts), 60000)`
with `baseDelay = RECONNECT_BACKOFF_BASE`.  The attempt counter is passed
explicitly; the source reads the module variable `reconnectAttempts`. -/
def getReconnectDelay (reconnectAttempts : Nat) : ℚ :=
  min ((RECONNECT_BACKOFF_BASE : ℚ) * (3 / 2 : ℚ) ^ reconnectAttempts) 60000

-- ============================================
-- Dedup cache (`processedMessageIds` / `addToProcessedCache`)
-- ============================================

/-- `addToProcessedCache`: when the set has reached `MAX_PROCESSED_CACHE`
entries, the oldest 1000 are evicted first; then the id is added
(JS `Set.add` keeps the original position of an already-present key). -/
def addToProcessedCache (messageKey : String) (cache : List String) : List String :=
  let c := if cache.length ≥ MAX_PROCESSED_CACHE then cache.drop 1000 else cache
  if messageKey ∈ c then c else c ++ [messageKey]

/-- One iteration of the `messages.upsert` loop for a message id: fast
in-memory duplicate check, then the bounded persistent-store scan
(`db` is the set of `metadata.messageKey` values of recently stored
messages); the id is marked processed before the classification/storage
work for it begins, and the returned `Bool` says whether the message is
delivered to the downstream pipeline. -/
def processOne (db : List String) (cache : List String) (messageKey : String) :
    List String × Bool :=
  if messageKey ∈ cache then (cache, false)
  else if messageKey ∈ db then (addToProcessedCache messageKey cache, false)
  else (addToProcessedCache messageKey cache, true)

/-- Folding the `messages.upsert` loop over a batch of message ids; returns
the final cache together with the list of ids delivered downstream. -/
def processBatch (db : List String) (cache : List String) :
    List String → List String × List String
  | [] => (cache, [])
  | m :: ms =>
    let r := processOne db cache m
    let rest := processBatch db r.1 ms
    (rest.1, (if r.2 then [m] else []) ++ rest.2)

-- ============================================
-- Connection lifecycle state machine
-- ============================================

/-- The `WhatsAppState.status` union from the routes module. -/
inductive WStatus
  | initializing
  | qr_ready
  | connecting
  | authenticating
  | loading_chats
  | connected
  | disconnected
  | error
deriving DecidableEq

/-- The `ConnectionPhase` union from the service module. -/
inductive ConnectionPhase
  | idle
  | starting
  | qr_ready
  | authenticating
  | connected
  | reconnecting
deriving DecidableEq

/-- Session credentials: `initAuthCreds()` mints fresh identity material,
`persisted` is a previously stored blob (content opaque, identified by id). -/
inductive CredsB
  | freshInit
  | persisted (blob : Nat)
deriving DecidableEq

/-- Line `const creds = (await readData('creds')) || initAuthCreds()` of
`useFirestoreAuthState`: load the stored blob, else mint fresh identity. -/
def loadCreds (stored : Option Nat) : CredsB :=
  match stored with
  | none => CredsB.freshInit
  | some b => CredsB.persisted b

/-- The observable `WhatsAppState` kept by the routes module and broadcast
to SSE observers.  `lastUpdate` is modelled as a millisecond timestamp. -/
structure WAState where
  status : WStatus
  qrCode : Option String
  user : Option (String × String)
  lastUpdate : Nat
  error : Option String
  messagesProcessed : Nat
  progress : Nat
  progressText : String
  connectionStartTime : Option Nat
deriving DecidableEq

/-- The module-level mutable state of the WhatsApp service: connection
phase, QR bookkeeping, reconnect bookkeeping, timer handles
(`scheduledReconnect` holds the pending delay, `qrExpiryTimeout` whether the
expiry timer is armed), auth-state handle and persisted credentials, plus
the published `WAState`. -/
structure SvcState where
  connectionPhase : ConnectionPhase
  seamlessQrRegeneration : Bool
  socketOpen : Bool
  qrRetryCount : Nat
  lastQrTime : Nat
  lastConnectionAttempt : Nat
  connectionHealthy : Bool
  lastSuccessfulConnection : Nat
  reconnectAttempts : Nat
  scheduledReconnect : Option ℚ
  qrExpiryTimeout : Bool
  hasAuthState : Bool
  persistedCreds : Option Nat
  activeCreds : Option CredsB
  wa : WAState
deriving DecidableEq

/-- `updateWhatsAppState`: merge the partial update into the published
state and refresh `lastUpdate` (the routes module always stamps
`new Date().toISOString()` and broadcasts the snapshot). -/
def updWA (now : Nat) (f : WAState → WAState) (s : SvcState) : SvcState :=
  { s with wa := { f s.wa with lastUpdate := now } }

/-- Whether the handler picks the immediate `setImmediate` restart path
(`immediateRestart`) or not; scheduled restarts are recorded in
`scheduledReconnect` instead. -/
inductive CloseAction
  | noRestart
  | immediateRestart
deriving DecidableEq

/-- Delay of a `setImmediate` callback, in milliseconds. -/
def setImmediateDelayMs : ℚ := 0

/-- `scheduleReconnect(delay, reason)`: clear any pending reconnect; if the
attempt ceiling is reached, reset and surface a terminal error; otherwise
enter `reconnecting` and arm the timer. -/
def scheduleReconnectM (now : Nat) (delay : ℚ) (s : SvcState) : SvcState :=
  let s := { s with scheduledReconnect := none }
  if s.reconnectAttempts ≥ MAX_RECONNECT_ATTEMPTS then
    let s := { s with reconnectAttempts := 0, connectionPhase := ConnectionPhase.idle }
    updWA now (fun w =>
      { w with
        status := WStatus.disconnected,
        progressText := "Connection failed. Please try again.",
        error := some "Maximum reconnection attempts reached" }) s
  else
    { s with connectionPhase := ConnectionPhase.reconnecting,
             scheduledReconnect := some delay }

/-- The `qr` branch of the `connection.update` handler: throttle
regeneration, enforce the retry ceiling, else accept the challenge
(increment the counter, stamp the time, publish the QR, arm the expiry
timer). -/
def handleQr (now : Nat) (qrImage : String) (s : SvcState) : SvcState :=
  if s.lastQrTime ≠ 0 ∧ now - s.lastQrTime < MIN_QR_REGENERATION_DELAY ∧
      s.qrRetryCount > 0 then
    s
  else if s.qrRetryCount ≥ MAX_QR_RETRIES then
    let s := { s with connectionPhase := ConnectionPhase.idle }
    updWA now (fun w =>
      { w with
        status := WStatus.error,
        error := some "QR code expired. Please try connecting again.",
        qrCode := none }) s
  else
    let newCount := s.qrRetryCount + 1
    let s := { s with qrRetryCount := newCount, lastQrTime := now,
                      connectionPhase := ConnectionPhase.qr_ready }
    let s := updWA now (fun w =>
      { w with
        status := WStatus.qr_ready,
        qrCode := some qrImage,
        progress := 0,
        progressText := "Scan QR code with WhatsApp (" ++ toString newCount ++
          "/" ++ toString MAX_QR_RETRIES ++ ")",
        error := none }) s
    { s with qrExpiryTimeout := true }

/-- The `connection === connecting` branch of the handler. -/
def handleConnecting (now : Nat) (s : SvcState) : SvcState :=
  let s := { s with connectionPhase := ConnectionPhase.authenticating,
                    qrExpiryTimeout := false }
  updWA now (fun w =>
    { w with
      status := WStatus.connecting,
      progressText := "Connecting to WhatsApp servers..." }) s

/-- The `connection === open` branch of the handler: reset all tracking
variables, cancel timers, publish the connected snapshot. -/
def handleOpen (now : Nat) (userName userPhone : String) (s : SvcState) : SvcState :=
  let s := { s with connectionPhase := ConnectionPhase.connected,
                    qrRetryCount := 0, lastQrTime := 0,
                    connectionHealthy := true, lastSuccessfulConnection := now,
                    reconnectAttempts := 0, scheduledReconnect := none,
                    qrExpiryTimeout := false }
  updWA now (fun w =>
    { w with
      status := WStatus.connected,
      qrCode := none,
      user := some (userName, userPhone),
      progress := 100,
      progressText := "Connected!",
      messagesProcessed := 0,
      error := none }) s

/-- The `connection === close` branch of the handler, dispatching on the
Boom status code of `lastDisconnect` (`none` models an undefined code). -/
def handleClose (now : Nat) (statusCode : Option Nat) (errMsg : String)
    (s : SvcState) : SvcState × CloseAction :=
  if statusCode = some DR_loggedOut then
    let s := { s with
      persistedCreds := if s.hasAuthState then none else s.persistedCreds,
      connectionPhase := ConnectionPhase.idle, qrRetryCount := 0, lastQrTime := 0,
      connectionHealthy := false, reconnectAttempts := 0,
      scheduledReconnect := none, qrExpiryTimeout := false }
    (updWA now (fun w =>
      { w with
        status := WStatus.disconnected,
        user := none,
        qrCode := none,
        error := some "Logged out from WhatsApp" }) s,
     CloseAction.noRestart)
  else if statusCode = some DR_restartRequired then
    if s.wa.status = WStatus.qr_ready ∨ s.connectionPhase = ConnectionPhase.qr_ready then
      let s := { s with seamlessQrRegeneration := true }
      let s := updWA now
        (fun w => { w with progressText := "Refreshing connection..." }) s
      ({ s with reconnectAttempts := 0 }, CloseAction.immediateRestart)
    else
      let s := { s with connectionHealthy := false }
      let s := updWA now (fun w =>
        { w with
          status := WStatus.connecting,
          progressText := "Reconnecting after pairing..." }) s
      let s := { s with reconnectAttempts := 0 }
      (scheduleReconnectM now 3000 s, CloseAction.noRestart)
  else if statusCode = some 428 then
    if s.wa.status = WStatus.qr_ready ∨ s.connectionPhase = ConnectionPhase.qr_ready then
      let s := { s with seamlessQrRegeneration := true }
      let s := updWA now (fun w =>
        { w with
          progressText := "Refreshing QR code... (" ++ toString s.qrRetryCount ++
            "/" ++ toString MAX_QR_RETRIES ++ ")" }) s
      ({ s with reconnectAttempts := 0 }, CloseAction.immediateRestart)
    else
      let s := { s with connectionHealthy := false }
      if s.qrRetryCount < MAX_QR_RETRIES then
        let s := updWA now (fun w =>
          { w with
            status := WStatus.qr_ready,
            progressText := "QR expired, generating new code... (" ++
              toString s.qrRetryCount ++ "/" ++ toString MAX_QR_RETRIES ++ ")" }) s
        let delay : ℚ :=
          max 3000 ((60000 : ℚ) - ((now : ℚ) - (s.lastQrTime : ℚ)))
        (scheduleReconnectM now delay s, CloseAction.noRestart)
      else
        let s := { s with connectionPhase := ConnectionPhase.idle }
        let s := updWA now (fun w =>
          { w with
            status := WStatus.disconnected,
            qrCode := none,
            progressText := "QR code attempts exhausted",
            error :=
              some "QR code expired too many times. Please click Connect to try again." }) s
        ({ s with qrRetryCount := 0, reconnectAttempts := 0 },
         CloseAction.noRestart)
  else if statusCode = some DR_connectionClosed ∨ statusCode = some DR_connectionLost then
    if s.wa.status = WStatus.qr_ready ∨ s.connectionPhase = ConnectionPhase.qr_ready then
      let s := { s with seamlessQrRegeneration := true }
      let s := updWA now (fun w => { w with progressText := "Reconnecting..." }) s
      ({ s with reconnectAttempts := 0 }, CloseAction.immediateRestart)
    else if s.connectionPhase = ConnectionPhase.authenticating then
      let s := { s with connectionHealthy := false }
      let s := updWA now (fun w =>
        { w with
          status := WStatus.authenticating,
          progressText := "Waiting for confirmation on your phone..." }) s
      (scheduleReconnectM now (MIN_RECONNECT_DELAY : ℚ) s, CloseAction.noRestart)
    else if statusCode ≠ some DR_loggedOut then
      let s := { s with connectionHealthy := false }
      if s.lastSuccessfulConnection ≠ 0 ∧
          now - s.lastSuccessfulConnection < 300000 then
        let s := updWA now (fun w =>
          { w with
            status := WStatus.connecting,
            progressText := "Connection lost, reconnecting..." }) s
        (scheduleReconnectM now 5000 s, CloseAction.noRestart)
      else
        let s := updWA now (fun w =>
          { w with
            status := WStatus.connecting,
            progressText := "Reconnecting..." }) s
        (scheduleReconnectM now (getReconnectDelay s.reconnectAttempts) s,
         CloseAction.noRestart)
    else
      (s, CloseAction.noRestart)
  else if statusCode ≠ some DR_loggedOut then
    if s.wa.status = WStatus.qr_ready ∨ s.connectionPhase = ConnectionPhase.qr_ready then
      let s := { s with seamlessQrRegeneration := true }
      let s := updWA now (fun w => { w with progressText := "Reconnecting..." }) s
      ({ s with reconnectAttempts := 0 }, CloseAction.immediateRestart)
    else
      let s := { s with connectionHealthy := false }
      let s := updWA now (fun w =>
        { w with
          status := WStatus.connecting,
          progressText := "Reconnecting... (" ++ errMsg ++ ")" }) s
      (scheduleReconnectM now (getReconnectDelay s.reconnectAttempts) s,
       CloseAction.noRestart)
  else
    let s :=
      { s with
        connectionPhase := ConnectionPhase.idle,
        qrRetryCount := 0,
        lastQrTime := 0,
        connectionHealthy := false,
        reconnectAttempts := 0,
        scheduledReconnect := none,
        qrExpiryTimeout := false }
    (updWA now (fun w =>
      { w with
        status := WStatus.disconnected,
        user := none,
        qrCode := none,
        error := some (if errMsg = "" then "Connection failed" else errMsg) }) s,
     CloseAction.noRestart)

/-- `startWhatsApp(force)`: the throttle check, the `starting`-phase and
already-connected no-op checks, then the actual start (force path clears
timers and counters; socket cleanup; phase `starting`; publish
initializing or seamless snapshot; load credentials, minting fresh
identity material when none are stored; create the socket).  The returned
`Bool` says whether a new socket was created. -/
def startWhatsApp (force : Bool) (now : Nat) (s : SvcState) : SvcState × Bool :=
  if force = false ∧ s.lastConnectionAttempt ≠ 0 ∧
      now - s.lastConnectionAttempt <
        (if s.wa.status = WStatus.qr_ready ∨ s.connectionPhase = ConnectionPhase.qr_ready
          then MIN_QR_RECONNECT_DELAY else MIN_RECONNECT_DELAY) then
    (s, false)
  else if s.connectionPhase = ConnectionPhase.starting ∧ force = false then
    (s, false)
  else if s.wa.status = WStatus.connected ∧ force = false then
    (s, false)
  else
    let s := if force then
        { s with scheduledReconnect := none, qrExpiryTimeout := false,
                 qrRetryCount := 0, reconnectAttempts := 0,
                 seamlessQrRegeneration := false }
      else s
    let s := { s with socketOpen := false }
    let s := { s with connectionPhase := ConnectionPhase.starting,
                      lastConnectionAttempt := now }
    let s := if s.seamlessQrRegeneration = false then
        updWA now (fun w =>
          { w with
            status := WStatus.initializing,
            error := none,
            progress := 0,
            progressText := "Initializing WhatsApp...",
            connectionStartTime := some now }) s
      else
        updWA now
          (fun w => { w with progressText := "Reconnecting to WhatsApp servers..." }) s
    let s := { s with hasAuthState := true,
                      activeCreds := some (loadCreds s.persistedCreds) }
    let s := if s.seamlessQrRegeneration = false then
        updWA now (fun w =>
          { w with
            status := WStatus.initializing,
            progressText := "Connecting to WhatsApp..." }) s
      else s
    let s := { s with seamlessQrRegeneration := false, socketOpen := true }
    (s, true)

/-- `stopWhatsApp`: cancel timers, clean up the socket, reset the module
state, publish the disconnected snapshot. -/
def stopWhatsApp (now : Nat) (s : SvcState) : SvcState :=
  let s := { s with scheduledReconnect := none, qrExpiryTimeout := false,
                    socketOpen := false, connectionPhase := ConnectionPhase.idle,
                    connectionHealthy := false, reconnectAttempts := 0,
                    qrRetryCount := 0, lastQrTime := 0 }
  updWA now (fun w =>
    { w with
      status := WStatus.disconnected,
      qrCode := none,
      user := none,
      error := none }) s

/-- The idle/disconnected resting state: the values `stopWhatsApp` leaves
behind (and the module's initial values). -/
def IsIdleState (s : SvcState) : Prop :=
  s.connectionPhase = ConnectionPhase.idle ∧ s.scheduledReconnect = none ∧
  s.qrExpiryTimeout = false ∧ s.socketOpen = false ∧
  s.connectionHealthy = false ∧ s.reconnectAttempts = 0 ∧
  s.qrRetryCount = 0 ∧ s.lastQrTime = 0 ∧
  s.wa.status = WStatus.disconnected ∧ s.wa.qrCode = none ∧
  s.wa.user = none ∧ s.wa.error = none

-- ============================================
-- System state service (offline detection)
-- ============================================

/-- Result of `SystemStateService.initialize`. -/
structure OfflineCheck where
  wasOffline : Bool
  offlineSince : Option Nat
  offlineDuration : Nat
deriving DecidableEq

/-- The offline-detection core of `SystemStateService.initialize`: given the
persisted `lastActiveTimestamp` (milliseconds, absent on first startup) and
the current time, compute `offlineDuration = floor((now - lastActive)/1000)`
seconds and report `wasOffline` when that duration exceeds 120 seconds. -/
def systemStateInit (storedLastActive : Option Nat) (nowMs : Nat) : OfflineCheck :=
  match storedLastActive with
  | none => { wasOffline := false, offlineSince := none, offlineDuration := 0 }
  | some lastActive =>
      let d := (nowMs - lastActive) / 1000
      { wasOffline := decide (d > 120), offlineSince := some lastActive,
        offlineDuration := d }

-- ============================================
-- Concrete states used by witnesses and counterexamples
-- ============================================

/-- A resting published state with `lastUpdate = 100`. -/
def idleWA : WAState :=
  { status := WStatus.disconnected, qrCode := none, user := none,
    lastUpdate := 100, error := none, messagesProcessed := 0, progress := 0,
    progressText := "", connectionStartTime := none }

/-- A resting service state (everything idle). -/
def idleSvc : SvcState :=
  { connectionPhase := ConnectionPhase.idle, seamlessQrRegeneration := false,
    socketOpen := false, qrRetryCount := 0, lastQrTime := 0,
    lastConnectionAttempt := 0, connectionHealthy := false,
    lastSuccessfulConnection := 0, reconnectAttempts := 0,
    scheduledReconnect := none, qrExpiryTimeout := false, hasAuthState := false,
    persistedCreds := none, activeCreds := none, wa := idleWA }

/-- Published state of a freshly started connection attempt. -/
def startingWA : WAState :=
  { status := WStatus.initializing, qrCode := none, user := none,
    lastUpdate := 999000, error := none, messagesProcessed := 0, progress := 0,
    progressText := "Initializing WhatsApp...", connectionStartTime := some 999000 }

/-- Service state of a freshly started connection attempt (no QR yet). -/
def startingSvc : SvcState :=
  { connectionPhase := ConnectionPhase.starting, seamlessQrRegeneration := false,
    socketOpen := true, qrRetryCount := 0, lastQrTime := 0,
    lastConnectionAttempt := 999000, connectionHealthy := false,
    lastSuccessfulConnection := 0, reconnectAttempts := 0,
    scheduledReconnect := none, qrExpiryTimeout := false, hasAuthState := true,
    persistedCreds := none, activeCreds := some CredsB.freshInit, wa := startingWA }

/-- The state after the transport emits challenge #1 at t = 1000000 ms. -/
def afterQr1 : SvcState := handleQr 1000000 "qr1" startingSvc

/-- Published state after the QR retry ceiling has been hit. -/
def exhaustedWA : WAState :=
  { status := WStatus.error, qrCode := none, user := none,
    lastUpdate := 1000000,
    error := some "QR code expired. Please try connecting again.",
    messagesProcessed := 0, progress := 0, progressText := "",
    connectionStartTime := some 5 }

/-- Service state after `MAX_QR_RETRIES` accepted challenges and the
subsequent terminal-error transition of the qr branch. -/
def exhaustedSvc : SvcState :=
  { connectionPhase := ConnectionPhase.idle, seamlessQrRegeneration := false,
    socketOpen := true, qrRetryCount := 30, lastQrTime := 1000000,
    lastConnectionAttempt := 900000, connectionHealthy := false,
    lastSuccessfulConnection := 0, reconnectAttempts := 0,
    scheduledReconnect := none, qrExpiryTimeout := false, hasAuthState := true,
    persistedCreds := none, activeCreds := some CredsB.freshInit,
    wa := exhaustedWA }

/-- A fully connected service state with stored credentials. -/
def connectedWA : WAState :=
  { status := WStatus.connected, qrCode := none, user := some ("U", "123"),
    lastUpdate := 50, error := none, messagesProcessed := 3, progress := 100,
    progressText := "Connected!", connectionStartTime := some 10 }

/-- A fully connected service state with stored credentials. -/
def connectedSvc : SvcState :=
  { connectionPhase := ConnectionPhase.connected, seamlessQrRegeneration := false,
    socketOpen := true, qrRetryCount := 0, lastQrTime := 0,
    lastConnectionAttempt := 40, connectionHealthy := true,
    lastSuccessfulConnection := 45, reconnectAttempts := 2,
    scheduledReconnect := none, qrExpiryTimeout := false, hasAuthState := true,
    persistedCreds := some 7, activeCreds := some (CredsB.persisted 7),
    wa := connectedWA }

-- ============================================
-- C1 / C6 supporting lemmas
-- ============================================

theorem addToProcessedCache_length_le (m : String) (c : List String) :
    (addToProcessedCache m c).length ≤ c.length + 1 := by
  unfold addToProcessedCache
  by_cases h : c.length ≥ MAX_PROCESSED_CACHE <;> simp [h] <;>
    split <;> simp <;> omega

theorem mem_addToProcessedCache_self (m : String) (c : List String) :
    m ∈ addToProcessedCache m c := by
  simp only [addToProcessedCache]
  split <;> split <;> simp_all

theorem mem_addToProcessedCache_of_small (m x : String) (c : List String)
    (hlen : c.length < MAX_PROCESSED_CACHE) (hx : x ∈ c) :
    x ∈ addToProcessedCache m c := by
  unfold addToProcessedCache
  have h : ¬ c.length ≥ MAX_PROCESSED_CACHE := by omega
  simp only [h, if_false]
  split <;> simp [hx]

theorem processBatch_preserves (db : List String) (m : String) :
    ∀ (ms : List String) (cache : List String), m ∈ cache →
      cache.length + ms.length ≤ MAX_PROCESSED_CACHE →
      m ∈ (processBatch db cache ms).1 ∧ m ∉ (processBatch db cache ms).2 := by
  intro ms
  induction ms with
  | nil => intro cache hm _; simpa [processBatch] using hm
  | cons m' ms ih =>
    intro cache hm hlen
    have hsmall : cache.length < MAX_PROCESSED_CACHE := by
      simp [List.length_cons] at hlen; omega
    by_cases hmem : m' ∈ cache
    · have hstep : processOne db cache m' = (cache, false) := by
        simp [processOne, hmem]
      have hrec := ih cache hm (by simp at hlen ⊢; omega)
      simp [processBatch, hstep, hrec.1, hrec.2]
    · have hne : m' ≠ m := fun h => hmem (h ▸ hm)
      have hm' : m ∈ addToProcessedCache m' cache :=
        mem_addToProcessedCache_of_small m' m cache hsmall hm
      have hlen' : (addToProcessedCache m' cache).length + ms.length ≤
          MAX_PROCESSED_CACHE := by
        have := addToProcessedCache_length_le m' cache
        simp [List.length_cons] at hlen; omega
      have hrec := ih (addToProcessedCache m' cache) hm' hlen'
      by_cases hdb : m' ∈ db
      · have hstep : processOne db cache m' =
            (addToProcessedCache m' cache, false) := by
          simp [processOne, hmem, hdb]
        simp [processBatch, hstep, hrec.1, hrec.2]
      · have hstep : processOne db cache m' =
            (addToProcessedCache m' cache, true) := by
          simp [processOne, hmem, hdb]
        simp [processBatch, hstep, hrec.1, hrec.2, Ne.symm hne]

-- ============================================
-- Claim theorems (C1, C6)
-- ============================================

/-- C1: the steady-state reconnect delay `getReconnectDelay` equals
`min(5000 * 1.5^reconnectAttempts, 60000)`, never exceeds the 60000 ms cap,
and is non-decreasing in the attempt count. -/
theorem reconnect_backoff_monotone_capped (n : Nat) :
    getReconnectDelay n = min ((5000 : ℚ) * (3 / 2 : ℚ) ^ n) 60000 ∧
    getReconnectDelay n ≤ 60000 ∧
    getReconnectDelay n ≤ getReconnectDelay (n + 1) := by
  refine ⟨rfl, min_le_right _ _, ?_⟩
  unfold getReconnectDelay
  apply min_le_min _ le_rfl
  apply mul_le_mul_of_nonneg_left _ (by norm_num)
  exact pow_le_pow_right₀ (by norm_num) (Nat.le_succ n)

/-- C6: marking a message id processed puts it in the dedup cache at once;
as long as no eviction can occur (cache plus batch stay within capacity),
every later duplicate check for the id succeeds (it stays in the cache) and
the id is never delivered to the downstream pipeline again; moreover any
message the loop does deliver has already been marked in the returned cache
(the mark precedes the asynchronous classification/storage work). -/
theorem dedup_idempotent_no_double_delivery
    (db cache ms : List String) (m : String)
    (hmark : m ∈ cache)
    (hcap : cache.length + ms.length ≤ MAX_PROCESSED_CACHE) :
    (∀ c : List String, m ∈ addToProcessedCache m c) ∧
    m ∈ (processBatch db cache ms).1 ∧
    m ∉ (processBatch db cache ms).2 ∧
    (∀ c : List String, (processOne db c m).2 = true → m ∈ (processOne db c m).1) := by
  refine ⟨fun c => mem_addToProcessedCache_self m c, ?_, ?_, ?_⟩
  · exact (processBatch_preserves db m ms cache hmark hcap).1
  · exact (processBatch_preserves db m ms cache hmark hcap).2
  · intro c hdel
    unfold processOne at hdel ⊢
    by_cases h1 : m ∈ c
    · simp [h1] at hdel
    · by_cases h2 : m ∈ db <;> simp [h1, h2, mem_addToProcessedCache_self]

/-- Witness for C6 at a concrete input: id "a" already marked, batch
re-delivers "a" then a fresh "b"; "a" stays cached and is not delivered. -/
theorem dedup_idempotent_no_double_delivery_witness :
    ("a" ∈ (["a"] : List String)) ∧
    (["a"] : List String).length + (["a", "b"] : List String).length ≤
      MAX_PROCESSED_CACHE ∧
    "a" ∈ (processBatch ["d"] ["a"] ["a", "b"]).1 ∧
    "a" ∉ (processBatch ["d"] ["a"] ["a", "b"]).2 := by
  have h := dedup_idempotent_no_double_delivery ["d"] ["a"] ["a", "b"] "a"
    (by decide) (by decide)
  exact ⟨by decide, by decide, h.2.1, h.2.2.1⟩

-- ============================================
-- Claim theorems (state machine)
-- ============================================

/-- C3: every `open` event resets the reconnect-attempt counter to zero,
whatever the prior phase or attempt count, so the delay computed for the
next failure is `getReconnectDelay 0`, the base delay of 5000 ms. -/
theorem open_resets_reconnect_attempts (now : Nat) (userName userPhone : String)
    (s : SvcState) :
    (handleOpen now userName userPhone s).reconnectAttempts = 0 ∧
    getReconnectDelay (handleOpen now userName userPhone s).reconnectAttempts =
      getReconnectDelay 0 ∧
    getReconnectDelay 0 = (RECONNECT_BACKOFF_BASE : ℚ) := by
  refine ⟨rfl, rfl, ?_⟩
  norm_num [getReconnectDelay, RECONNECT_BACKOFF_BASE]

/-- C7: a `qr` event arriving while the previous challenge is younger than
`MIN_QR_REGENERATION_DELAY` (and a challenge has been accepted before) is
suppressed: the handler returns with the state unchanged, so neither the
attempt counter nor the published QR moves. -/
theorem qr_throttle_suppresses (now : Nat) (qrImage : String) (s : SvcState)
    (h1 : s.lastQrTime ≠ 0) (h2 : now - s.lastQrTime < MIN_QR_REGENERATION_DELAY)
    (h3 : s.qrRetryCount > 0) :
    handleQr now qrImage s = s := by
  unfold handleQr
  rw [if_pos ⟨h1, h2, h3⟩]

/-- Witness for C7, the spec scenario: challenge #1 accepted at
t = 1000000 ms, challenge #2 arrives 10 s later, below the 120 s spacing;
challenge #2 is suppressed and challenge #1 stays current. -/
theorem qr_throttle_suppresses_witness :
    afterQr1.lastQrTime ≠ 0 ∧
    1010000 - afterQr1.lastQrTime < MIN_QR_REGENERATION_DELAY ∧
    afterQr1.qrRetryCount > 0 ∧
    handleQr 1010000 "qr2" afterQr1 = afterQr1 ∧
    afterQr1.wa.qrCode = some "qr1" :=
  ⟨by decide, by decide, by decide,
   qr_throttle_suppresses 1010000 "qr2" afterQr1 (by decide) (by decide) (by decide),
   by decide⟩

/-- C2: a `close` event with the restart-required reason code while the
connection is still in the pairing phase takes the immediate
(`setImmediate`, sub-5-second) restart path and does not increment the
steady-state reconnect-attempt counter (it resets it to zero). -/
theorem restart_required_qr_phase_immediate (now : Nat) (errMsg : String)
    (s : SvcState)
    (h : s.wa.status = WStatus.qr_ready ∨ s.connectionPhase = ConnectionPhase.qr_ready) :
    (handleClose now (some DR_restartRequired) errMsg s).2 =
      CloseAction.immediateRestart ∧
    setImmediateDelayMs < 5000 ∧
    (handleClose now (some DR_restartRequired) errMsg s).1.reconnectAttempts = 0 ∧
    (handleClose now (some DR_restartRequired) errMsg s).1.reconnectAttempts ≤
      s.reconnectAttempts := by
  unfold handleClose
  rw [if_neg (by decide), if_pos rfl, if_pos h]
  refine ⟨rfl, by norm_num [setImmediateDelayMs], rfl, Nat.zero_le _⟩

/-- Witness for C2 at the concrete pairing-phase state `afterQr1`. -/
theorem restart_required_qr_phase_immediate_witness :
    (afterQr1.wa.status = WStatus.qr_ready ∨
      afterQr1.connectionPhase = ConnectionPhase.qr_ready) ∧
    (handleClose 1050000 (some DR_restartRequired) "restart" afterQr1).2 =
      CloseAction.immediateRestart ∧
    (handleClose 1050000 (some DR_restartRequired) "restart" afterQr1).1.reconnectAttempts
      = 0 :=
  ⟨Or.inl (by decide),
   (restart_required_qr_phase_immediate 1050000 "restart" afterQr1
     (Or.inl (by decide))).1,
   (restart_required_qr_phase_immediate 1050000 "restart" afterQr1
     (Or.inl (by decide))).2.2.1⟩

/-- Any `startWhatsApp` call that actually creates a socket loads the
persisted credentials, minting fresh identity material when none are
stored (line `(await readData('creds')) || initAuthCreds()`). -/
theorem startWhatsApp_activeCreds (f : Bool) (t : Nat) (s : SvcState)
    (h : (startWhatsApp f t s).2 = true) :
    (startWhatsApp f t s).1.activeCreds = some (loadCreds s.persistedCreds) := by
  cases f <;> unfold startWhatsApp at h ⊢ <;> split_ifs at h ⊢ <;>
    simp_all [updWA, apply_ite SvcState.activeCreds, apply_ite SvcState.persistedCreds]

/-- Non-forced `startWhatsApp` never changes the QR retry counter. -/
theorem startWhatsApp_false_qrRetryCount (t : Nat) (s : SvcState) :
    (startWhatsApp false t s).1.qrRetryCount = s.qrRetryCount := by
  unfold startWhatsApp
  split_ifs <;> simp_all [updWA, apply_ite SvcState.qrRetryCount]

/-- Forced `startWhatsApp` resets the QR retry counter to zero. -/
theorem startWhatsApp_true_qrRetryCount (t : Nat) (s : SvcState) :
    (startWhatsApp true t s).1.qrRetryCount = 0 := by
  unfold startWhatsApp
  split_ifs <;> simp_all [updWA, apply_ite SvcState.qrRetryCount]

/-- C5: a `close` event with the logged-out reason code, at any phase,
clears the persisted session credentials, moves the phase to `idle` with
no reconnect scheduled, publishes a disconnected snapshot carrying the
logged-out error, and any subsequent `start` that creates a socket mints
fresh identity material because no stored creds remain. -/
theorem logged_out_clears_session (now t : Nat) (errMsg : String) (f : Bool)
    (s : SvcState) (hauth : s.hasAuthState = true) :
    (handleClose now (some DR_loggedOut) errMsg s).1.persistedCreds = none ∧
    (handleClose now (some DR_loggedOut) errMsg s).1.connectionPhase =
      ConnectionPhase.idle ∧
    (handleClose now (some DR_loggedOut) errMsg s).1.scheduledReconnect = none ∧
    (handleClose now (some DR_loggedOut) errMsg s).1.wa.status =
      WStatus.disconnected ∧
    (handleClose now (some DR_loggedOut) errMsg s).1.wa.user = none ∧
    (handleClose now (some DR_loggedOut) errMsg s).1.wa.qrCode = none ∧
    (handleClose now (some DR_loggedOut) errMsg s).1.wa.error =
      some "Logged out from WhatsApp" ∧
    ((startWhatsApp f t (handleClose now (some DR_loggedOut) errMsg s).1).2 = true →
      (startWhatsApp f t (handleClose now (some DR_loggedOut) errMsg s).1).1.activeCreds
        = some CredsB.freshInit) := by
  have hcreds : (handleClose now (some DR_loggedOut) errMsg s).1.persistedCreds = none := by
    unfold handleClose
    rw [if_pos rfl]
    simp [updWA, hauth]
  refine ⟨hcreds, ?_, ?_, ?_, ?_, ?_, ?_, ?_⟩
  · unfold handleClose; rw [if_pos rfl]; simp [updWA]
  · unfold handleClose; rw [if_pos rfl]; simp [updWA]
  · unfold handleClose; rw [if_pos rfl]; simp [updWA]
  · unfold handleClose; rw [if_pos rfl]; simp [updWA]
  · unfold handleClose; rw [if_pos rfl]; simp [updWA]
  · unfold handleClose; rw [if_pos rfl]; simp [updWA]
  · intro hstart
    rw [startWhatsApp_activeCreds f t _ hstart, hcreds]
    rfl

/-- Witness for C5 at the concrete connected state with stored creds. -/
theorem logged_out_clears_session_witness :
    connectedSvc.hasAuthState = true ∧
    (handleClose 5000 (some DR_loggedOut) "bye" connectedSvc).1.persistedCreds = none ∧
    (handleClose 5000 (some DR_loggedOut) "bye" connectedSvc).1.connectionPhase =
      ConnectionPhase.idle ∧
    (startWhatsApp true 6000
        (handleClose 5000 (some DR_loggedOut) "bye" connectedSvc).1).1.activeCreds =
      some CredsB.freshInit := by
  have h := logged_out_clears_session 5000 6000 "bye" true connectedSvc (by decide)
  exact ⟨by decide, h.1, h.2.1, h.2.2.2.2.2.2.2 (by decide)⟩

/-- C8 (amended): calling `stopWhatsApp` when the service is already idle
raises no error and leaves every field of the module state and of the
published `ConnectionState` unchanged except `lastUpdate`, which
`updateWhatsAppState` unconditionally refreshes (re-broadcasting the
snapshot). -/
theorem stop_when_idle_only_touches_lastUpdate (now : Nat) (s : SvcState)
    (h : IsIdleState s) :
    stopWhatsApp now s = { s with wa := { s.wa with lastUpdate := now } } := by
  obtain ⟨h1, h2, h3, h4, h5, h6, h7, h8, h9, h10, h11, h12⟩ := h
  unfold stopWhatsApp updWA
  cases s with
  | mk cp sq so qrc lqt lca ch lsc ra sr qet has pc ac wa =>
    cases wa with
    | mk st qc us lu er mp pr pt cst => simp_all

/-- Witness for the amended C8 at the concrete idle state. -/
theorem stop_when_idle_only_touches_lastUpdate_witness :
    stopWhatsApp 200 idleSvc =
      { idleSvc with wa := { idleSvc.wa with lastUpdate := 200 } } :=
  stop_when_idle_only_touches_lastUpdate 200 idleSvc
    ⟨rfl, rfl, rfl, rfl, rfl, rfl, rfl, rfl, rfl, rfl, rfl, rfl⟩

/-- Counterexample to C8 as stated: at a concrete already-idle state with
`lastUpdate = 100`, calling stop at t = 200 changes the published
last-update timestamp, so the published `ConnectionState` does not stay
unchanged in all fields. -/
theorem stop_when_idle_counterexample :
    IsIdleState idleSvc ∧
    (stopWhatsApp 200 idleSvc).wa.lastUpdate ≠ idleSvc.wa.lastUpdate := by
  exact ⟨⟨rfl, rfl, rfl, rfl, rfl, rfl, rfl, rfl, rfl, rfl, rfl, rfl⟩, by decide⟩

/-- C9 (amended): on start-up the offline tracker reports
`wasOffline = true` exactly when the whole-second offline duration
`floor((now - lastActiveAt) / 1000)` exceeds the 120-second threshold
(equivalently, when the raw gap reaches 121 s), and it reports that
duration; with `lastActiveAt` 10 minutes in the past it reports
`wasOffline = true` with a duration of 600 s. -/
theorem offline_detection (lastActive nowMs : Nat) :
    ((systemStateInit (some lastActive) nowMs).wasOffline = true ↔
      (nowMs - lastActive) / 1000 > 120) ∧
    (systemStateInit (some lastActive) nowMs).offlineDuration =
      (nowMs - lastActive) / 1000 ∧
    (systemStateInit (some lastActive) (lastActive + 600000)).wasOffline = true ∧
    (systemStateInit (some lastActive) (lastActive + 600000)).offlineDuration = 600 := by
  refine ⟨by simp [systemStateInit], rfl, ?_, ?_⟩
  · simp [systemStateInit, Nat.add_sub_cancel_left]
  · simp [systemStateInit, Nat.add_sub_cancel_left]

/-- Counterexample to C9 as stated: a gap of 120500 ms exceeds the
120-second threshold, yet the tracker reports `wasOffline = false`,
because the comparison is on the whole-second floor of the gap. -/
theorem offline_detection_counterexample :
    120000 < 120500 ∧
    (systemStateInit (some 0) 120500).wasOffline = false := by
  exact ⟨by decide, by decide⟩

/-- C10: a non-forced `startWhatsApp` issued while the previous connection
attempt is younger than the minimum spacing (2 s in QR phase, 30 s
otherwise) is a complete no-op — the state (hence all module-level
lifecycle variables and the published snapshot) is returned unchanged and
no socket is created — while `force = true` always reaches socket
creation. -/
theorem start_throttled_noop (now : Nat) (s : SvcState)
    (h1 : s.lastConnectionAttempt ≠ 0)
    (h2 : now - s.lastConnectionAttempt <
      (if s.wa.status = WStatus.qr_ready ∨ s.connectionPhase = ConnectionPhase.qr_ready
        then MIN_QR_RECONNECT_DELAY else MIN_RECONNECT_DELAY)) :
    startWhatsApp false now s = (s, false) ∧
    (startWhatsApp true now s).2 = true := by
  constructor
  · unfold startWhatsApp
    rw [if_pos ⟨rfl, h1, h2⟩]
  · unfold startWhatsApp
    split_ifs <;> simp_all [apply_ite Prod.snd]

/-- Witness for C10 at the concrete QR-phase state `afterQr1`, 1.5 s after
the previous attempt (below the 2 s QR-phase spacing). -/
theorem start_throttled_noop_witness :
    afterQr1.lastConnectionAttempt ≠ 0 ∧
    1000500 - afterQr1.lastConnectionAttempt <
      (if afterQr1.wa.status = WStatus.qr_ready ∨
          afterQr1.connectionPhase = ConnectionPhase.qr_ready
        then MIN_QR_RECONNECT_DELAY else MIN_RECONNECT_DELAY) ∧
    startWhatsApp false 1000500 afterQr1 = (afterQr1, false) :=
  ⟨by decide, by decide,
   (start_throttled_noop 1000500 afterQr1 (by decide) (by decide)).1⟩

/-- C4 (amended): once `qrRetryCount` has reached `MAX_QR_RETRIES`, every
further `qr` event is rejected before incrementing the counter or
publishing a QR — either silently (inside the regeneration-throttle
window) or by transitioning to the terminal `error` status with phase
`idle`; the exhausted counter survives non-forced `start` calls and is
reset by `start(force = true)`.  However, a `close(428)` event outside the
QR phase also resets the counter (moving to a disconnected state with an
error message), so the lockout does not persist until a forced start on
every path. -/
theorem qr_ceiling_rejects (now t u : Nat) (qrImage errMsg : String) (s : SvcState)
    (h : s.qrRetryCount ≥ MAX_QR_RETRIES) :
    (handleQr now qrImage s).qrRetryCount = s.qrRetryCount ∧
    (handleQr now qrImage s = s ∨
      ((handleQr now qrImage s).wa.status = WStatus.error ∧
       (handleQr now qrImage s).connectionPhase = ConnectionPhase.idle ∧
       (handleQr now qrImage s).wa.qrCode = none)) ∧
    (startWhatsApp false t s).1.qrRetryCount = s.qrRetryCount ∧
    (startWhatsApp true t s).1.qrRetryCount = 0 ∧
    (s.wa.status ≠ WStatus.qr_ready → s.connectionPhase ≠ ConnectionPhase.qr_ready →
      (handleClose u (some 428) errMsg s).1.qrRetryCount = 0) := by
  refine ⟨?_, ?_, startWhatsApp_false_qrRetryCount t s,
    startWhatsApp_true_qrRetryCount t s, ?_⟩
  · unfold handleQr
    by_cases hth : s.lastQrTime ≠ 0 ∧ now - s.lastQrTime < MIN_QR_REGENERATION_DELAY ∧
        s.qrRetryCount > 0
    · rw [if_pos hth]
    · rw [if_neg hth, if_pos h]
      simp [updWA]
  · unfold handleQr
    by_cases hth : s.lastQrTime ≠ 0 ∧ now - s.lastQrTime < MIN_QR_REGENERATION_DELAY ∧
        s.qrRetryCount > 0
    · rw [if_pos hth]; exact Or.inl rfl
    · rw [if_neg hth, if_pos h]
      exact Or.inr (by simp [updWA])
  · intro hs hp
    unfold handleClose
    rw [if_neg (by decide), if_neg (by decide), if_pos rfl,
      if_neg (by simp [hs, hp]), if_neg (by dsimp only; omega)]

/-- Witness for the amended C4 at the concrete exhausted state. -/
theorem qr_ceiling_rejects_witness :
    exhaustedSvc.qrRetryCount ≥ MAX_QR_RETRIES ∧
    (handleQr 1200000 "late" exhaustedSvc).qrRetryCount =
      exhaustedSvc.qrRetryCount ∧
    (startWhatsApp false 2000000 exhaustedSvc).1.qrRetryCount =
      exhaustedSvc.qrRetryCount ∧
    (startWhatsApp true 2000000 exhaustedSvc).1.qrRetryCount = 0 := by
  have h := qr_ceiling_rejects 1200000 2000000 1200000 "late" "terminated"
    exhaustedSvc (by decide)
  exact ⟨by decide, h.1, h.2.2.1, h.2.2.2.1⟩

/-- Counterexample to C4 as stated: from the concrete terminal-error state
`exhaustedSvc` (counter at the ceiling, status `error`), a `close(428)`
event — with no `start(force = true)` in between — resets the counter to
zero, after which the next `qr` event is accepted: the counter increments
and a fresh QR is published. -/
theorem qr_ceiling_counterexample :
    exhaustedSvc.qrRetryCount = MAX_QR_RETRIES ∧
    exhaustedSvc.wa.status = WStatus.error ∧
    (handleClose 1200000 (some 428) "terminated" exhaustedSvc).1.qrRetryCount = 0 ∧
    (handleQr 1400000 "fresh"
      (handleClose 1200000 (some 428) "terminated" exhaustedSvc).1).qrRetryCount = 1 ∧
    (handleQr 1400000 "fresh"
      (handleClose 1200000 (some 428) "terminated" exhaustedSvc).1).wa.qrCode =
      some "fresh" := by
  refine ⟨by decide, by decide, by decide, by decide, by decide⟩
